import Mathlib

/-!
Verification of the streaming malware-detection engine of
PacketInspectionTransformerV3.

The development shallowly embeds the decision logic of the repository:

* `Settings.get_risk_level` and the risk-interval table (src/settings.py),
* `calculate_risk_level` of the threat manager (src/threat_manager.py),
* `get_dynamic_threshold` and the batch flagging of `analyze_packets`
  (src/ModelLoader.py),
* the rolling-window buffer, the per-chunk threshold checks and the
  terminal-result constructors of `StreamingDetector.scan_url` and
  `StreamingDetector.scan_file` (src/detector.py).

Probabilities and durations are embedded as rationals, byte strings as
`List ℕ`, Python dictionaries carrying scan details as association lists.
The neural scorer (`StreamingDetector.infer`) is an external collaborator
and is abstracted as a function from a byte window to either a probability
or a raised fault (`Except String ℚ`); wall-clock scan times are abstracted
as `0` since no theorem concerns them.
-/

/-- Runtime configuration: the fields of the pydantic `Settings` class
(src/settings.py) that the streaming engine reads, together with the three
early-termination parameters that `StreamingDetector.__init__`
(src/detector.py lines 215-217) reads from the settings object. -/
structure Settings where
  confidence_threshold : ℚ
  low_risk_threshold : ℚ
  medium_risk_threshold : ℚ
  high_risk_threshold : ℚ
  critical_threshold : ℚ
  chunk_size : ℕ
  window_size : ℕ
  max_file_size : ℕ
  early_termination_enabled : Bool
  early_termination_threshold : ℚ
  early_termination_min_bytes : ℕ
deriving Repr, DecidableEq

/-- Default field values declared in src/settings.py.  The three
early-termination fields are read by the detector from the settings object
but carry no declared default in src/settings.py; the values used below are
placeholders and no theorem depends on them. -/
def defaultSettings : Settings where
  confidence_threshold := 0.7
  low_risk_threshold := 0.3
  medium_risk_threshold := 0.5
  high_risk_threshold := 0.7
  critical_threshold := 0.9
  chunk_size := 512
  window_size := 1500
  max_file_size := 100 * 1024 * 1024
  early_termination_enabled := false
  early_termination_threshold := 0.95
  early_termination_min_bytes := 1024

/-- `Settings.risk_levels` (src/settings.py lines 207-216): the ordered
label table `{label: (low, high)}`, kept in insertion order. -/
def Settings.risk_levels (s : Settings) : List (String × ℚ × ℚ) :=
  [("BENIGN", 0, s.low_risk_threshold),
   ("LOW", s.low_risk_threshold, s.medium_risk_threshold),
   ("MEDIUM", s.medium_risk_threshold, s.high_risk_threshold),
   ("HIGH", s.high_risk_threshold, s.critical_threshold),
   ("CRITICAL", s.critical_threshold, 1)]

/-- `Settings.get_risk_level` (src/settings.py lines 218-223): first table
entry whose half-open interval `[low, high)` contains the probability wins;
if none does, the fallback returns `CRITICAL` for `probability ≥ 1` and
`BENIGN` otherwise. -/
def Settings.get_risk_level (s : Settings) (probability : ℚ) : String :=
  match s.risk_levels.find?
      (fun lh => decide (lh.2.1 ≤ probability ∧ probability < lh.2.2)) with
  | some lh => lh.1
  | none => if probability ≥ 1 then "CRITICAL" else "BENIGN"

/-- `ThreatManager.RISK_LEVELS` (src/threat_manager.py lines 27-33). -/
def RISK_LEVELS : List ((ℚ × ℚ) × String) :=
  [((0, 0.3), "BENIGN"),
   ((0.3, 0.5), "LOW"),
   ((0.5, 0.7), "MEDIUM"),
   ((0.7, 0.9), "HIGH"),
   ((0.9, 1), "CRITICAL")]

/-- `ThreatManager.calculate_risk_level` (src/threat_manager.py lines
124-137): same linear scan and the same fallback as
`Settings.get_risk_level`. -/
def calculate_risk_level (probability : ℚ) : String :=
  match RISK_LEVELS.find?
      (fun e => decide (e.1.1 ≤ probability ∧ probability < e.1.2)) with
  | some e => e.2
  | none => if probability ≥ 1 then "CRITICAL" else "BENIGN"

/-- `MalwareDetectorService.get_dynamic_threshold` (src/ModelLoader.py lines
672-681). -/
def get_dynamic_threshold (packet_size : ℕ) : ℚ :=
  if packet_size ≤ 100 then 0.75
  else if packet_size ≤ 800 then
    (0.75 : ℚ) + ((0.80 : ℚ) - 0.75) * (((packet_size : ℚ) - 100) / 700)
  else 0.85

/-- The dynamic-threshold flagging loop of
`MalwareDetectorService.analyze_packets` (src/ModelLoader.py lines 701-714):
item `i` is flagged `1` when its malicious probability strictly exceeds the
dynamic threshold computed from the payload's size, else `0`. -/
def analyze_packets_preds (packet_payloads : List (List ℕ))
    (malicious_probabilities : List ℚ) : List ℕ :=
  List.zipWith
    (fun payload prob =>
      if prob > get_dynamic_threshold payload.length then 1 else 0)
    packet_payloads malicious_probabilities

/-- A value stored in a Python details dictionary or in the serialized form
of a `ScanResult`: the repository stores strings, floats, integers,
booleans, `None`, and nested dictionaries there. -/
inductive PyVal where
  | str (x : String)
  | rat (x : ℚ)
  | nat (x : ℕ)
  | bool (x : Bool)
  | dict (x : List (String × PyVal))
  | none

/-- `ScanResult` (src/detector.py lines 32-44): the dataclass carrying a
terminal scan outcome.  `timestamp` defaults to the empty string exactly as
in the dataclass declaration. -/
structure ScanResult where
  source : String
  source_type : String
  probability : ℚ
  risk_level : String
  bytes_scanned : ℕ
  blocked : Bool
  scan_time_ms : ℚ
  status : String
  details : Option (List (String × PyVal)) := Option.none
  timestamp : String := ""

/-- `ScanResult.to_dict` (src/detector.py lines 46-59): the serialized form,
listing every emitted key in source order. -/
def ScanResult.to_dict (r : ScanResult) : List (String × PyVal) :=
  [("source", PyVal.str r.source),
   ("source_type", PyVal.str r.source_type),
   ("probability", PyVal.rat r.probability),
   ("risk_level", PyVal.str r.risk_level),
   ("bytes_scanned", PyVal.nat r.bytes_scanned),
   ("blocked", PyVal.bool r.blocked),
   ("scan_time_ms", PyVal.rat r.scan_time_ms),
   ("status", PyVal.str r.status),
   ("details", match r.details with
               | some d => PyVal.dict d
               | Option.none => PyVal.none),
   ("timestamp", PyVal.str r.timestamp)]

/-- String read from a serialized dictionary. -/
def pyStr (d : List (String × PyVal)) (k : String) : String :=
  match d.lookup k with
  | some (PyVal.str x) => x
  | _ => ""

/-- Rational read from a serialized dictionary. -/
def pyRat (d : List (String × PyVal)) (k : String) : ℚ :=
  match d.lookup k with
  | some (PyVal.rat x) => x
  | _ => 0

/-- Natural number read from a serialized dictionary. -/
def pyNat (d : List (String × PyVal)) (k : String) : ℕ :=
  match d.lookup k with
  | some (PyVal.nat x) => x
  | _ => 0

/-- Boolean read from a serialized dictionary. -/
def pyBool (d : List (String × PyVal)) (k : String) : Bool :=
  match d.lookup k with
  | some (PyVal.bool x) => x
  | _ => false

/-- Optional nested dictionary read from a serialized dictionary. -/
def pyDetails (d : List (String × PyVal)) (k : String) :
    Option (List (String × PyVal)) :=
  match d.lookup k with
  | some (PyVal.dict x) => some x
  | _ => Option.none

/-- Modelled from the spec: the repository serializes a `ScanResult` with
`to_dict` but contains no deserializer; spec section 6 requires the record
to "round-trip through any serialization boundary without loss".  The
deserializer reconstructs each field of the record by key lookup. -/
def ScanResult.from_dict (d : List (String × PyVal)) : ScanResult where
  source := pyStr d "source"
  source_type := pyStr d "source_type"
  probability := pyRat d "probability"
  risk_level := pyStr d "risk_level"
  bytes_scanned := pyNat d "bytes_scanned"
  blocked := pyBool d "blocked"
  scan_time_ms := pyRat d "scan_time_ms"
  status := pyStr d "status"
  details := pyDetails d "details"
  timestamp := pyStr d "timestamp"

/-- The detector statistics dictionary (src/detector.py lines 225-230). -/
structure Stats where
  total_scans : ℕ
  threats_blocked : ℕ
  total_bytes_scanned : ℕ
  avg_scan_time_ms : ℚ
deriving Repr, DecidableEq

/-- Python `dict.update`: keys of `base` keep their position and are
overwritten when they also occur in `upd`; keys only in `upd` are appended.
(Every call in src/detector.py has disjoint key sets.) -/
def dict_update (base upd : List (String × PyVal)) : List (String × PyVal) :=
  base.map (fun kv =>
    match upd.lookup kv.1 with
    | some v => (kv.1, v)
    | Option.none => kv)
  ++ upd.filter (fun kv => !(base.any (fun bk => bk.1 == kv.1)))

/-- `StreamingDetector._create_blocked_result` (src/detector.py lines
585-650): increments `total_scans`, `threats_blocked` and
`total_bytes_scanned`, merges the supplied details over `{"log_id": …}`,
and builds the blocked `ScanResult`.  The threat-manager log id is
abstracted as the `log_id` argument, the wall-clock duration as the
`scan_time_ms` argument. -/
def create_blocked_result (s : Settings) (log_id : ℕ)
    (source source_type : String) (probability : ℚ) (bytes_scanned : ℕ)
    (scan_time_ms : ℚ) (details : Option (List (String × PyVal)))
    (stats : Stats) : Stats × ScanResult :=
  let risk_level := s.get_risk_level probability
  let stats1 : Stats :=
    { stats with
      total_scans := stats.total_scans + 1
      threats_blocked := stats.threats_blocked + 1
      total_bytes_scanned := stats.total_bytes_scanned + bytes_scanned }
  let result_details :=
    dict_update [("log_id", PyVal.nat log_id)] (details.getD [])
  (stats1,
   { source := source
     source_type := source_type
     probability := probability
     risk_level := risk_level
     bytes_scanned := bytes_scanned
     blocked := true
     scan_time_ms := scan_time_ms
     status := "THREAT_DETECTED"
     details := some result_details })

/-- `StreamingDetector._create_clean_result` (src/detector.py lines
652-696): increments `total_scans` and `total_bytes_scanned` (not
`threats_blocked`), merges details over `{"log_id": …}`, and builds the
clean `ScanResult`. -/
def create_clean_result (s : Settings) (log_id : ℕ)
    (source source_type : String) (probability : ℚ) (bytes_scanned : ℕ)
    (scan_time_ms : ℚ) (details : Option (List (String × PyVal)))
    (stats : Stats) : Stats × ScanResult :=
  let risk_level := s.get_risk_level probability
  let stats1 : Stats :=
    { stats with
      total_scans := stats.total_scans + 1
      total_bytes_scanned := stats.total_bytes_scanned + bytes_scanned }
  let result_details :=
    dict_update [("log_id", PyVal.nat log_id)] (details.getD [])
  (stats1,
   { source := source
     source_type := source_type
     probability := probability
     risk_level := risk_level
     bytes_scanned := bytes_scanned
     blocked := false
     scan_time_ms := scan_time_ms
     status := "CLEAN"
     details := some result_details })

/-- The `except requests.RequestException` handler of
`StreamingDetector.scan_url` (src/detector.py lines 486-499): the result is
built directly — `probability=0.0`, `risk_level="BENIGN"`, `blocked=False`,
`status="ERROR"`, the fault text under `"error"` — and the statistics are
not touched. -/
def error_scan_result (url : String) (bytes_scanned : ℕ)
    (scan_time_ms : ℚ) (message : String) : ScanResult where
  source := url
  source_type := "URL"
  probability := 0
  risk_level := "BENIGN"
  bytes_scanned := bytes_scanned
  blocked := false
  scan_time_ms := scan_time_ms
  status := "ERROR"
  details := some [("error", PyVal.str message)]

/-- Python `buffer[-w:]` on a byte buffer: for `w = 0` the slice is the
whole buffer (`b[-0:]` is `b[0:]`); for `w > 0` it keeps the last
`min w (len b)` bytes. -/
def slice_last (b : List ℕ) (w : ℕ) : List ℕ :=
  if w = 0 then b else b.drop (b.length - w)

/-- The chunking loop header of `StreamingDetector.scan_file`
(src/detector.py line 535): `for i in range(0, len(file_data), chunk_size)`
with `chunk = file_data[i:i+chunk_size]`. -/
def chunks_of (data : List ℕ) (chunk_size : ℕ) : List (List ℕ) :=
  (List.range ((data.length + chunk_size - 1) / chunk_size)).map
    (fun i => (data.drop (i * chunk_size)).take chunk_size)

/-- One event produced by the streaming chunk source of `scan_url`:
either the next byte chunk of `response.iter_content`, or a raised
`requests.RequestException`. -/
inductive ChunkEvent where
  | chunk (data : List ℕ)
  | fault (message : String)

/-- Total length of a chunk sequence. -/
def total_len (cs : List (List ℕ)) : ℕ := (cs.map List.length).sum

/-- The per-chunk loop of `StreamingDetector.scan_file` (src/detector.py
lines 535-575).  State per iteration: the rolling buffer, `bytes_scanned`
and `max_probability`.  Each chunk is folded into the rolling window
(`buffer.extend(chunk); buffer = buffer[-window_size:]`), scored, and the
early-termination check runs before the standard threshold check; on
exhaustion the clean result carries the running maximum probability.  A
fault raised by the scorer propagates (`scan_file` has no handler). -/
def scan_file_go (s : Settings) (infer : List ℕ → Except String ℚ)
    (log_id : ℕ) (use_early_termination : Bool) (filename : String)
    (stats : Stats) :
    List ℕ → ℕ → ℚ → List (List ℕ) → Except String (Stats × ScanResult)
  | _, bytes_scanned, max_probability, [] =>
    Except.ok (create_clean_result s log_id filename "FILE" max_probability
      bytes_scanned 0
      (some [("early_termination_attempted", PyVal.bool false)]) stats)
  | buffer, bytes_scanned, max_probability, chunk :: rest =>
    let buffer1 := slice_last (buffer ++ chunk) s.window_size
    let bytes1 := bytes_scanned + chunk.length
    match infer buffer1 with
    | Except.error e => Except.error e
    | Except.ok probability =>
      if use_early_termination = true
          ∧ bytes1 ≥ s.early_termination_min_bytes
          ∧ probability ≥ s.early_termination_threshold then
        Except.ok (create_blocked_result s log_id filename "FILE"
          probability bytes1 0
          (some [("early_termination", PyVal.bool true)]) stats)
      else if probability ≥ s.confidence_threshold then
        Except.ok (create_blocked_result s log_id filename "FILE"
          probability bytes1 0 Option.none stats)
      else
        scan_file_go s infer log_id use_early_termination filename stats
          buffer1 bytes1 (max max_probability probability) rest

/-- `StreamingDetector.scan_file` (src/detector.py lines 501-575):
resolves the early-termination override, chunks the file data, and runs the
streaming loop from the empty buffer.  `block_on_detection` is accepted and
never read, as in the source.  In the clean result the
`early_termination_attempted` flag is always `False`: the source sets the
flag only immediately before returning a blocked result. -/
def scan_file (s : Settings) (infer : List ℕ → Except String ℚ)
    (log_id : ℕ) (file_data : List ℕ) (filename : String)
    (block_on_detection : Bool) (early_termination : Option Bool)
    (stats : Stats) : Except String (Stats × ScanResult) :=
  let use_early_termination :=
    early_termination.getD s.early_termination_enabled
  scan_file_go s infer log_id use_early_termination filename stats
    [] 0 0 (chunks_of file_data s.chunk_size)

/-- The download loop and exception handler of `StreamingDetector.scan_url`
(src/detector.py lines 424-499).  In source order per chunk: an empty chunk
breaks the loop (clean result); the chunk is folded into the rolling
window and `bytes_scanned` updated; exceeding `max_file_size` breaks the
loop (clean result, probability not yet recomputed); the window is scored;
the early-termination check runs before the standard check.  A
`requests.RequestException` raised by the chunk source is caught and
returns the `status="ERROR"` result with the statistics untouched; a fault
raised by the scorer is not a `RequestException` and propagates. -/
def scan_url_go (s : Settings) (infer : List ℕ → Except String ℚ)
    (log_id : ℕ) (use_early_termination : Bool) (url : String)
    (stats : Stats) :
    List ℕ → ℕ → ℚ → List ChunkEvent → Except String (Stats × ScanResult)
  | _, bytes_scanned, max_probability, [] =>
    Except.ok (create_clean_result s log_id url "URL" max_probability
      bytes_scanned 0
      (some [("early_termination_attempted", PyVal.bool false)]) stats)
  | _, bytes_scanned, _, ChunkEvent.fault message :: _ =>
    Except.ok (stats, error_scan_result url bytes_scanned 0 message)
  | buffer, bytes_scanned, max_probability, ChunkEvent.chunk chunk :: rest =>
    if chunk.length = 0 then
      Except.ok (create_clean_result s log_id url "URL" max_probability
        bytes_scanned 0
        (some [("early_termination_attempted", PyVal.bool false)]) stats)
    else
      let buffer1 := slice_last (buffer ++ chunk) s.window_size
      let bytes1 := bytes_scanned + chunk.length
      if bytes1 > s.max_file_size then
        Except.ok (create_clean_result s log_id url "URL" max_probability
          bytes1 0
          (some [("early_termination_attempted", PyVal.bool false)]) stats)
      else
        match infer buffer1 with
        | Except.error e => Except.error e
        | Except.ok probability =>
          if use_early_termination = true
              ∧ bytes1 ≥ s.early_termination_min_bytes
              ∧ probability ≥ s.early_termination_threshold then
            Except.ok (create_blocked_result s log_id url "URL"
              probability bytes1 0
              (some [("early_termination", PyVal.bool true)]) stats)
          else if probability ≥ s.confidence_threshold then
            Except.ok (create_blocked_result s log_id url "URL"
              probability bytes1 0 Option.none stats)
          else
            scan_url_go s infer log_id use_early_termination url stats
              buffer1 bytes1 (max max_probability probability) rest

/-- `StreamingDetector.scan_url` (src/detector.py lines 391-499): resolves
the early-termination override and runs the download loop from the empty
buffer over the events produced by the chunk source. -/
def scan_url (s : Settings) (infer : List ℕ → Except String ℚ)
    (log_id : ℕ) (url : String) (block_on_detection : Bool)
    (early_termination : Option Bool) (events : List ChunkEvent)
    (stats : Stats) : Except String (Stats × ScanResult) :=
  let use_early_termination :=
    early_termination.getD s.early_termination_enabled
  scan_url_go s infer log_id use_early_termination url stats [] 0 0 events

/-- A scorer that never faults, for stating properties of healthy runs. -/
def pureScorer (f : List ℕ → ℚ) : List ℕ → Except String ℚ :=
  fun b => Except.ok (f b)

/-- The successive window probabilities of a streaming scan: the score of
each rolling window produced while folding a chunk sequence into a buffer. -/
def window_probs (s : Settings) (f : List ℕ → ℚ) :
    List ℕ → List (List ℕ) → List ℚ
  | _, [] => []
  | buffer, chunk :: rest =>
    let buffer1 := slice_last (buffer ++ chunk) s.window_size
    f buffer1 :: window_probs s f buffer1 rest

/-- The rolling-window buffer obtained by folding a chunk sequence through
the source's append step `buffer.extend(chunk); buffer = buffer[-w:]`
(src/detector.py lines 438-439 and 539-540), starting from the empty
buffer. -/
def run_buffer (w : ℕ) (cs : List (List ℕ)) : List ℕ :=
  cs.foldl (fun buffer chunk => slice_last (buffer ++ chunk) w) []

/-! ## Helper lemmas on the risk classifiers -/

theorem get_risk_level_eq (s : Settings) (p : ℚ) :
    s.get_risk_level p =
      if 0 ≤ p ∧ p < s.low_risk_threshold then "BENIGN"
      else if s.low_risk_threshold ≤ p ∧ p < s.medium_risk_threshold then "LOW"
      else if s.medium_risk_threshold ≤ p ∧ p < s.high_risk_threshold then "MEDIUM"
      else if s.high_risk_threshold ≤ p ∧ p < s.critical_threshold then "HIGH"
      else if s.critical_threshold ≤ p ∧ p < 1 then "CRITICAL"
      else if p ≥ 1 then "CRITICAL" else "BENIGN" := by
  unfold Settings.get_risk_level Settings.risk_levels
  by_cases h1 : 0 ≤ p ∧ p < s.low_risk_threshold
  · rw [List.find?_cons_of_pos _ (by simpa using h1), if_pos h1]
  rw [List.find?_cons_of_neg _ (by simpa using h1), if_neg h1]
  by_cases h2 : s.low_risk_threshold ≤ p ∧ p < s.medium_risk_threshold
  · rw [List.find?_cons_of_pos _ (by simpa using h2), if_pos h2]
  rw [List.find?_cons_of_neg _ (by simpa using h2), if_neg h2]
  by_cases h3 : s.medium_risk_threshold ≤ p ∧ p < s.high_risk_threshold
  · rw [List.find?_cons_of_pos _ (by simpa using h3), if_pos h3]
  rw [List.find?_cons_of_neg _ (by simpa using h3), if_neg h3]
  by_cases h4 : s.high_risk_threshold ≤ p ∧ p < s.critical_threshold
  · rw [List.find?_cons_of_pos _ (by simpa using h4), if_pos h4]
  rw [List.find?_cons_of_neg _ (by simpa using h4), if_neg h4]
  by_cases h5 : s.critical_threshold ≤ p ∧ p < 1
  · rw [List.find?_cons_of_pos _ (by simpa using h5), if_pos h5]
  rw [List.find?_cons_of_neg _ (by simpa using h5), if_neg h5]
  rfl

theorem calculate_risk_level_eq (p : ℚ) :
    calculate_risk_level p =
      if 0 ≤ p ∧ p < 0.3 then "BENIGN"
      else if 0.3 ≤ p ∧ p < 0.5 then "LOW"
      else if 0.5 ≤ p ∧ p < 0.7 then "MEDIUM"
      else if 0.7 ≤ p ∧ p < 0.9 then "HIGH"
      else if 0.9 ≤ p ∧ p < 1 then "CRITICAL"
      else if p ≥ 1 then "CRITICAL" else "BENIGN" := by
  unfold calculate_risk_level RISK_LEVELS
  by_cases h1 : 0 ≤ p ∧ p < (0.3 : ℚ)
  · rw [List.find?_cons_of_pos _ (by simpa using h1), if_pos h1]
  rw [List.find?_cons_of_neg _ (by simpa using h1), if_neg h1]
  by_cases h2 : (0.3 : ℚ) ≤ p ∧ p < 0.5
  · rw [List.find?_cons_of_pos _ (by simpa using h2), if_pos h2]
  rw [List.find?_cons_of_neg _ (by simpa using h2), if_neg h2]
  by_cases h3 : (0.5 : ℚ) ≤ p ∧ p < 0.7
  · rw [List.find?_cons_of_pos _ (by simpa using h3), if_pos h3]
  rw [List.find?_cons_of_neg _ (by simpa using h3), if_neg h3]
  by_cases h4 : (0.7 : ℚ) ≤ p ∧ p < 0.9
  · rw [List.find?_cons_of_pos _ (by simpa using h4), if_pos h4]
  rw [List.find?_cons_of_neg _ (by simpa using h4), if_neg h4]
  by_cases h5 : (0.9 : ℚ) ≤ p ∧ p < 1
  · rw [List.find?_cons_of_pos _ (by simpa using h5), if_pos h5]
  rw [List.find?_cons_of_neg _ (by simpa using h5), if_neg h5]
  rfl

@[simp] theorem defaultSettings_low : defaultSettings.low_risk_threshold = 0.3 := rfl

@[simp] theorem defaultSettings_medium : defaultSettings.medium_risk_threshold = 0.5 := rfl

@[simp] theorem defaultSettings_high : defaultSettings.high_risk_threshold = 0.7 := rfl

@[simp] theorem defaultSettings_critical : defaultSettings.critical_threshold = 0.9 := rfl

/-! ## The five risk buckets of the default interval table -/

/-- Lower bound of the i-th entry of the default risk table. -/
def risk_interval_low (i : Fin 5) : ℚ :=
  (defaultSettings.risk_levels.getD i.1 ("", 0, 0)).2.1

/-- Upper bound of the i-th entry of the default risk table. -/
def risk_interval_high (i : Fin 5) : ℚ :=
  (defaultSettings.risk_levels.getD i.1 ("", 0, 0)).2.2

/-- Label of the i-th entry of the default risk table. -/
def risk_interval_label (i : Fin 5) : String :=
  (defaultSettings.risk_levels.getD i.1 ("", 0, 0)).1

/-- Membership in the i-th half-open interval `[low, high)` of the default
risk table. -/
def risk_interval_mem (i : Fin 5) (p : ℚ) : Prop :=
  risk_interval_low i ≤ p ∧ p < risk_interval_high i

/-- Membership in the i-th risk bucket: the half-open interval, with the
probability `1.0` special-cased into the top bucket, mirroring the
`probability >= 1.0` fallback of `Settings.get_risk_level`. -/
def risk_bucket_mem (i : Fin 5) (p : ℚ) : Prop :=
  risk_interval_mem i p ∨ (i = (4 : Fin 5) ∧ p = 1)

/-- Characterization of membership in an interval of the default risk
table. -/
theorem risk_interval_mem_iff (p : ℚ) (i : Fin 5) :
    risk_interval_mem i p ↔
      (i.val = 0 ∧ 0 ≤ p ∧ p < 0.3) ∨ (i.val = 1 ∧ 0.3 ≤ p ∧ p < 0.5) ∨
      (i.val = 2 ∧ 0.5 ≤ p ∧ p < 0.7) ∨ (i.val = 3 ∧ 0.7 ≤ p ∧ p < 0.9) ∨
      (i.val = 4 ∧ 0.9 ≤ p ∧ p < 1) := by
  fin_cases i <;>
    simp [risk_interval_mem, risk_interval_low, risk_interval_high, defaultSettings,
      Settings.risk_levels]

/-- C5 (counterexample): on probabilities outside `[0, 1]` both risk
classifiers return an ordinary risk label — `BENIGN` below `0`, `CRITICAL`
above `1` — instead of failing with an `InvalidProbability` error; no error
path exists in either function. -/
theorem risk_level_out_of_range_returns_label :
    calculate_risk_level (-1) = "BENIGN"
    ∧ defaultSettings.get_risk_level (-1) = "BENIGN"
    ∧ calculate_risk_level 2 = "CRITICAL"
    ∧ defaultSettings.get_risk_level 2 = "CRITICAL" := by
  refine ⟨?_, ?_, ?_, ?_⟩ <;>
    · first
      | rw [calculate_risk_level_eq]
      | rw [get_risk_level_eq]
      norm_num

/-- C5 (amended): the risk classification operations are total: for every
probability below `0` both `Settings.get_risk_level` (with the default
thresholds) and `ThreatManager.calculate_risk_level` return `BENIGN`, and
for every probability above `1` both return `CRITICAL`; no input makes them
fail. -/
theorem risk_level_out_of_range (p : ℚ) :
    (p < 0 → calculate_risk_level p = "BENIGN"
      ∧ defaultSettings.get_risk_level p = "BENIGN")
    ∧ (1 < p → calculate_risk_level p = "CRITICAL"
      ∧ defaultSettings.get_risk_level p = "CRITICAL") := by
  constructor
  · intro h
    have k1 : ¬ (0 : ℚ) ≤ p := by linarith
    have k2 : ¬ (0.3 : ℚ) ≤ p := by intro hc; norm_num at hc; linarith
    have k3 : ¬ (0.5 : ℚ) ≤ p := by intro hc; norm_num at hc; linarith
    have k4 : ¬ (0.7 : ℚ) ≤ p := by intro hc; norm_num at hc; linarith
    have k5 : ¬ (0.9 : ℚ) ≤ p := by intro hc; norm_num at hc; linarith
    have k6 : ¬ p ≥ (1 : ℚ) := by intro hc; linarith
    constructor
    · rw [calculate_risk_level_eq]
      simp [k1, k2, k3, k4, k5, k6]
    · rw [get_risk_level_eq]
      simp only [defaultSettings_low, defaultSettings_medium, defaultSettings_high,
        defaultSettings_critical]
      simp [k1, k2, k3, k4, k5, k6]
  · intro h
    have k1 : ¬ p < (0.3 : ℚ) := by intro hc; norm_num at hc; linarith
    have k2 : ¬ p < (0.5 : ℚ) := by intro hc; norm_num at hc; linarith
    have k3 : ¬ p < (0.7 : ℚ) := by intro hc; norm_num at hc; linarith
    have k4 : ¬ p < (0.9 : ℚ) := by intro hc; norm_num at hc; linarith
    have k5 : ¬ p < (1 : ℚ) := by intro hc; linarith
    have k6 : p ≥ (1 : ℚ) := by linarith
    constructor
    · rw [calculate_risk_level_eq]
      simp [k1, k2, k3, k4, k5, k6]
    · rw [get_risk_level_eq]
      simp only [defaultSettings_low, defaultSettings_medium, defaultSettings_high,
        defaultSettings_critical]
      simp [k1, k2, k3, k4, k5, k6]

/-- C5 (witness): the amended theorem applied at the concrete
probabilities `-1` and `2`. -/
theorem risk_level_out_of_range_witness :
    calculate_risk_level (-1) = "BENIGN"
    ∧ defaultSettings.get_risk_level 2 = "CRITICAL" :=
  ⟨((risk_level_out_of_range (-1)).1 (by norm_num)).1,
   ((risk_level_out_of_range 2).2 (by norm_num)).2⟩

/-- C6: with the default thresholds (0.3, 0.5, 0.7, 0.9) the five
half-open intervals of the risk table partition `[0, 1)` with no gap and no
overlap, every probability in `[0, 1]` lies in exactly one risk bucket once
the `1.0` endpoint is special-cased into the top bucket,
`Settings.get_risk_level` returns the label of the containing bucket, and
the boundary values classify as `0.29 ↦ BENIGN`, `0.30 ↦ LOW`,
`0.89 ↦ HIGH`, `0.90 ↦ CRITICAL`, `1.0 ↦ CRITICAL`. -/
theorem risk_intervals_partition :
    (∀ p : ℚ, 0 ≤ p → p ≤ 1 → ∃! i : Fin 5, risk_bucket_mem i p)
    ∧ (∀ p : ℚ, 0 ≤ p → p < 1 → ∃! i : Fin 5, risk_interval_mem i p)
    ∧ (∀ (p : ℚ) (i : Fin 5), risk_bucket_mem i p →
        defaultSettings.get_risk_level p = risk_interval_label i)
    ∧ defaultSettings.get_risk_level 0.29 = "BENIGN"
    ∧ defaultSettings.get_risk_level 0.30 = "LOW"
    ∧ defaultSettings.get_risk_level 0.89 = "HIGH"
    ∧ defaultSettings.get_risk_level 0.90 = "CRITICAL"
    ∧ defaultSettings.get_risk_level 1 = "CRITICAL" := by
  have interval_part : ∀ p : ℚ, 0 ≤ p → p < 1 → ∃! i : Fin 5, risk_interval_mem i p := by
    intro p h0 h1
    rcases lt_or_le p 0.3 with c1 | c1
    · refine ⟨0, (risk_interval_mem_iff p 0).mpr (Or.inl ⟨rfl, h0, c1⟩), fun j hj => ?_⟩
      rcases (risk_interval_mem_iff p j).mp hj with
        ⟨e, _⟩ | ⟨e, a, b⟩ | ⟨e, a, b⟩ | ⟨e, a, b⟩ | ⟨e, a, b⟩ <;>
        first | exact Fin.ext e | (exfalso; linarith)
    rcases lt_or_le p 0.5 with c2 | c2
    · refine ⟨1, (risk_interval_mem_iff p 1).mpr (Or.inr (Or.inl ⟨rfl, c1, c2⟩)),
        fun j hj => ?_⟩
      rcases (risk_interval_mem_iff p j).mp hj with
        ⟨e, a, b⟩ | ⟨e, _⟩ | ⟨e, a, b⟩ | ⟨e, a, b⟩ | ⟨e, a, b⟩ <;>
        first | exact Fin.ext e | (exfalso; linarith)
    rcases lt_or_le p 0.7 with c3 | c3
    · refine ⟨2, (risk_interval_mem_iff p 2).mpr (Or.inr (Or.inr (Or.inl ⟨rfl, c2, c3⟩))),
        fun j hj => ?_⟩
      rcases (risk_interval_mem_iff p j).mp hj with
        ⟨e, a, b⟩ | ⟨e, a, b⟩ | ⟨e, _⟩ | ⟨e, a, b⟩ | ⟨e, a, b⟩ <;>
        first | exact Fin.ext e | (exfalso; linarith)
    rcases lt_or_le p 0.9 with c4 | c4
    · refine ⟨3, (risk_interval_mem_iff p 3).mpr
        (Or.inr (Or.inr (Or.inr (Or.inl ⟨rfl, c3, c4⟩)))), fun j hj => ?_⟩
      rcases (risk_interval_mem_iff p j).mp hj with
        ⟨e, a, b⟩ | ⟨e, a, b⟩ | ⟨e, a, b⟩ | ⟨e, _⟩ | ⟨e, a, b⟩ <;>
        first | exact Fin.ext e | (exfalso; linarith)
    refine ⟨4, (risk_interval_mem_iff p 4).mpr
      (Or.inr (Or.inr (Or.inr (Or.inr ⟨rfl, c4, h1⟩)))), fun j hj => ?_⟩
    rcases (risk_interval_mem_iff p j).mp hj with
      ⟨e, a, b⟩ | ⟨e, a, b⟩ | ⟨e, a, b⟩ | ⟨e, a, b⟩ | ⟨e, _⟩ <;>
      first | exact Fin.ext e | (exfalso; linarith)
  have no_interval_at_one : ∀ j : Fin 5, ¬ risk_interval_mem j 1 := by
    intro j hj
    rcases (risk_interval_mem_iff 1 j).mp hj with
      ⟨_, _, b⟩ | ⟨_, _, b⟩ | ⟨_, _, b⟩ | ⟨_, _, b⟩ | ⟨_, _, b⟩ <;> norm_num at b
  refine ⟨?_, interval_part, ?_, ?_, ?_, ?_, ?_, ?_⟩
  · intro p h0 h1
    rcases eq_or_lt_of_le h1 with rfl | hlt
    · refine ⟨4, Or.inr ⟨rfl, rfl⟩, fun j hj => ?_⟩
      rcases hj with hj | ⟨e, _⟩
      · exact absurd hj (no_interval_at_one j)
      · exact e
    · obtain ⟨i, hi, hu⟩ := interval_part p h0 hlt
      refine ⟨i, Or.inl hi, fun j hj => ?_⟩
      rcases hj with hj | ⟨_, e⟩
      · exact hu j hj
      · exact absurd e (by intro e1; rw [e1] at hlt; exact lt_irrefl 1 hlt)
  · intro p i h
    rcases h with hmem | ⟨hi, hp⟩
    · rcases (risk_interval_mem_iff p i).mp hmem with
        ⟨e, a, b⟩ | ⟨e, a, b⟩ | ⟨e, a, b⟩ | ⟨e, a, b⟩ | ⟨e, a, b⟩
      · have lab : risk_interval_label i = "BENIGN" := by
          unfold risk_interval_label; rw [e]; rfl
        rw [lab, get_risk_level_eq]
        simp only [defaultSettings_low]
        rw [if_pos ⟨a, b⟩]
      · have lab : risk_interval_label i = "LOW" := by
          unfold risk_interval_label; rw [e]; rfl
        rw [lab, get_risk_level_eq]
        simp only [defaultSettings_low, defaultSettings_medium]
        rw [if_neg (by rintro ⟨x, y⟩; linarith), if_pos ⟨a, b⟩]
      · have lab : risk_interval_label i = "MEDIUM" := by
          unfold risk_interval_label; rw [e]; rfl
        rw [lab, get_risk_level_eq]
        simp only [defaultSettings_low, defaultSettings_medium, defaultSettings_high]
        rw [if_neg (by rintro ⟨x, y⟩; linarith), if_neg (by rintro ⟨x, y⟩; linarith),
          if_pos ⟨a, b⟩]
      · have lab : risk_interval_label i = "HIGH" := by
          unfold risk_interval_label; rw [e]; rfl
        rw [lab, get_risk_level_eq]
        simp only [defaultSettings_low, defaultSettings_medium, defaultSettings_high,
          defaultSettings_critical]
        rw [if_neg (by rintro ⟨x, y⟩; linarith), if_neg (by rintro ⟨x, y⟩; linarith),
          if_neg (by rintro ⟨x, y⟩; linarith), if_pos ⟨a, b⟩]
      · have lab : risk_interval_label i = "CRITICAL" := by
          unfold risk_interval_label; rw [e]; rfl
        rw [lab, get_risk_level_eq]
        simp only [defaultSettings_low, defaultSettings_medium, defaultSettings_high,
          defaultSettings_critical]
        rw [if_neg (by rintro ⟨x, y⟩; linarith), if_neg (by rintro ⟨x, y⟩; linarith),
          if_neg (by rintro ⟨x, y⟩; linarith), if_neg (by rintro ⟨x, y⟩; linarith),
          if_pos ⟨a, b⟩]
    · have lab : risk_interval_label i = "CRITICAL" := by
        unfold risk_interval_label; rw [hi]; rfl
      subst hp
      rw [lab, get_risk_level_eq]
      simp only [defaultSettings_low, defaultSettings_medium, defaultSettings_high,
        defaultSettings_critical]
      rw [if_neg (by rintro ⟨x, y⟩; norm_num at y), if_neg (by rintro ⟨x, y⟩; norm_num at y),
        if_neg (by rintro ⟨x, y⟩; norm_num at y), if_neg (by rintro ⟨x, y⟩; norm_num at y),
        if_neg (by rintro ⟨x, y⟩; norm_num at y), if_pos (by norm_num)]
  · rw [get_risk_level_eq]; norm_num
  · rw [get_risk_level_eq]; norm_num
  · rw [get_risk_level_eq]; norm_num
  · rw [get_risk_level_eq]; norm_num
  · rw [get_risk_level_eq]; norm_num

/-- C6 (witness): the partition theorem applied at the concrete
probabilities `1` (bucket existence and uniqueness) and `0.29` (label
agreement with a discharged membership hypothesis). -/
theorem risk_intervals_partition_witness :
    (∃! i : Fin 5, risk_bucket_mem i 1)
    ∧ defaultSettings.get_risk_level 0.29 = risk_interval_label 0 :=
  ⟨risk_intervals_partition.1 1 (by norm_num) (by norm_num),
   risk_intervals_partition.2.2.1 0.29 0
     (Or.inl ((risk_interval_mem_iff 0.29 0).mpr (Or.inl ⟨rfl, by norm_num, by norm_num⟩)))⟩

/-- C7: the dynamic threshold is `0.75` for sizes at most 100, the linear
interpolation `0.75 + 0.05·(size−100)/700` for sizes in `(100, 800]`, and
`0.85` above 800 — in particular `0.75`, `0.775`, `0.80`, `0.85` at sizes
100, 450, 800, 1000 — and a batch item is flagged malicious exactly when
its probability strictly exceeds its dynamic threshold. -/
theorem dynamic_threshold_spec :
    (∀ n : ℕ, n ≤ 100 → get_dynamic_threshold n = 0.75)
    ∧ (∀ n : ℕ, 100 < n → n ≤ 800 →
        get_dynamic_threshold n = 0.75 + 0.05 * (((n : ℚ) - 100) / 700))
    ∧ (∀ n : ℕ, 800 < n → get_dynamic_threshold n = 0.85)
    ∧ get_dynamic_threshold 100 = 0.75
    ∧ get_dynamic_threshold 450 = 0.775
    ∧ get_dynamic_threshold 800 = 0.80
    ∧ get_dynamic_threshold 1000 = 0.85
    ∧ (∀ (packet_payloads : List (List ℕ)) (malicious_probabilities : List ℚ)
        (i : ℕ) (hz : i < (analyze_packets_preds packet_payloads malicious_probabilities).length)
        (h1 : i < packet_payloads.length) (h2 : i < malicious_probabilities.length),
        ((analyze_packets_preds packet_payloads malicious_probabilities)[i] = 1
          ↔ malicious_probabilities[i]
              > get_dynamic_threshold (packet_payloads[i]).length)) := by
  refine ⟨?_, ?_, ?_, ?_, ?_, ?_, ?_, ?_⟩
  · intro n h
    simp [get_dynamic_threshold, h]
  · intro n h1 h2
    rw [get_dynamic_threshold, if_neg (by omega), if_pos h2]
    norm_num
  · intro n h
    rw [get_dynamic_threshold, if_neg (by omega), if_neg (by omega)]
  · norm_num [get_dynamic_threshold]
  · norm_num [get_dynamic_threshold]
  · norm_num [get_dynamic_threshold]
  · norm_num [get_dynamic_threshold]
  · intro payloads probs i hz h1 h2
    unfold analyze_packets_preds
    rw [List.getElem_zipWith]
    constructor
    · intro h
      by_contra hc
      rw [if_neg hc] at h
      exact absurd h (by norm_num)
    · intro h
      rw [if_pos h]

/-- C7 (witness): the dynamic-threshold theorem applied at the concrete
sizes 50 and 450 and at a concrete one-item batch, all hypotheses
discharged at those inputs. -/
theorem dynamic_threshold_spec_witness :
    get_dynamic_threshold 50 = 0.75
    ∧ get_dynamic_threshold 450 = 0.75 + 0.05 * ((((450 : ℕ) : ℚ) - 100) / 700)
    ∧ ((analyze_packets_preds [[0, 1, 2]] [(0.9 : ℚ)])[0] = 1
        ↔ (0.9 : ℚ) > get_dynamic_threshold ([0, 1, 2] : List ℕ).length) := by
  refine ⟨dynamic_threshold_spec.1 50 (by norm_num),
    dynamic_threshold_spec.2.1 450 (by norm_num) (by norm_num), ?_⟩
  have h := dynamic_threshold_spec.2.2.2.2.2.2.2 [[0, 1, 2]] [(0.9 : ℚ)] 0
    (by simp [analyze_packets_preds]) (by norm_num) (by norm_num)
  simpa using h

/-- Length of the Python slice `b[-w:]` for positive `w`. -/
theorem length_slice_last (b : List ℕ) (w : ℕ) (hw : 0 < w) :
    (slice_last b w).length = min w b.length := by
  unfold slice_last
  rw [if_neg (by omega)]
  rw [List.length_drop]
  omega

/-- Folding chunks through the rolling-window append from any buffer not
longer than the window keeps the length at
`min windowSize (initial + total appended)`. -/
theorem foldl_window_length (w : ℕ) (hw : 0 < w) :
    ∀ (cs : List (List ℕ)) (b : List ℕ), b.length ≤ w →
      (cs.foldl (fun buffer chunk => slice_last (buffer ++ chunk) w) b).length
        = min w (b.length + total_len cs) := by
  intro cs
  induction cs with
  | nil =>
    intro b hb
    simp [total_len]
    omega
  | cons c rest ih =>
    intro b hb
    simp only [List.foldl_cons]
    have hstep : (slice_last (b ++ c) w).length = min w (b.length + c.length) := by
      rw [length_slice_last _ _ hw]
      simp
    rw [ih _ (by rw [hstep]; omega), hstep]
    simp only [total_len, List.map_cons, List.sum_cons]
    omega

/-- C8: for every chunk sequence folded into the rolling window, after each
append (that is, after any prefix of the sequence) the buffer length equals
`min windowSize totalBytesAppended`, and in particular never exceeds
`windowSize`.  The hypothesis `0 < windowSize` reflects the settings
validation `window_size ≥ 512`; Python's `buffer[-0:]` would keep the whole
buffer. -/
theorem sliding_window_length_invariant (w : ℕ) (hw : 0 < w)
    (cs : List (List ℕ)) (n : ℕ) :
    (run_buffer w (cs.take n)).length = min w (total_len (cs.take n))
    ∧ (run_buffer w (cs.take n)).length ≤ w := by
  have h := foldl_window_length w hw (cs.take n) [] (by simp)
  simp only [List.length_nil, Nat.zero_add] at h
  refine ⟨by simpa [run_buffer] using h, ?_⟩
  rw [show run_buffer w (cs.take n)
      = (cs.take n).foldl (fun buffer chunk => slice_last (buffer ++ chunk) w) [] from rfl, h]
  omega

/-- C8 (witness): the invariant applied to the window size 3 and the chunk
sequence `[[1,2],[3,4]]` after both appends: the buffer holds
`min 3 4 = 3` bytes. -/
theorem sliding_window_length_invariant_witness :
    (run_buffer 3 (([[1, 2], [3, 4]] : List (List ℕ)).take 2)).length
        = min 3 (total_len (([[1, 2], [3, 4]] : List (List ℕ)).take 2))
    ∧ (run_buffer 3 (([[1, 2], [3, 4]] : List (List ℕ)).take 2)).length ≤ 3 :=
  sliding_window_length_invariant 3 (by decide) [[1, 2], [3, 4]] 2

/-- A concrete `ScanResult` used to exhibit the serialized field set. -/
def sampleScanResult : ScanResult where
  source := "http://example.com/a"
  source_type := "URL"
  probability := 0
  risk_level := "BENIGN"
  bytes_scanned := 0
  blocked := false
  scan_time_ms := 0
  status := "CLEAN"
  details := Option.none
  timestamp := "2024-01-01T00:00:00Z"

/-- C9 (counterexample): the serialized form of a `ScanResult` carries ten
keys, not the nine enumerated in the data model — the extra `timestamp` key
is emitted by `to_dict` and is not among the nine. -/
theorem serialized_fields_include_timestamp :
    sampleScanResult.to_dict.map Prod.fst
      = ["source", "source_type", "probability", "risk_level", "bytes_scanned",
         "blocked", "scan_time_ms", "status", "details", "timestamp"]
    ∧ "timestamp" ∉ (["source", "source_type", "probability", "risk_level",
         "bytes_scanned", "blocked", "scan_time_ms", "status", "details"] : List String) :=
  ⟨rfl, by decide⟩

/-- C9 (amended): the serialized form of every `ScanResult` contains
exactly ten fields — the nine enumerated in the data model plus
`timestamp` — and deserializing the serialized form restores the record
exactly (lossless round-trip). -/
theorem to_dict_round_trip (r : ScanResult) :
    r.to_dict.map Prod.fst
      = ["source", "source_type", "probability", "risk_level", "bytes_scanned",
         "blocked", "scan_time_ms", "status", "details", "timestamp"]
    ∧ ScanResult.from_dict r.to_dict = r := by
  refine ⟨rfl, ?_⟩
  rcases r with ⟨a, b, c, d, e, f, g, h, i, j⟩
  rcases i with _ | i <;> rfl

/-! ## Projection lemmas for the terminal-result constructors -/

@[simp] theorem create_blocked_result_status (s : Settings) (log_id : ℕ)
    (src ty : String) (p : ℚ) (b : ℕ) (ms : ℚ)
    (d : Option (List (String × PyVal))) (stats : Stats) :
    (create_blocked_result s log_id src ty p b ms d stats).2.status = "THREAT_DETECTED" := rfl

@[simp] theorem create_blocked_result_blocked (s : Settings) (log_id : ℕ)
    (src ty : String) (p : ℚ) (b : ℕ) (ms : ℚ)
    (d : Option (List (String × PyVal))) (stats : Stats) :
    (create_blocked_result s log_id src ty p b ms d stats).2.blocked = true := rfl

@[simp] theorem create_blocked_result_probability (s : Settings) (log_id : ℕ)
    (src ty : String) (p : ℚ) (b : ℕ) (ms : ℚ)
    (d : Option (List (String × PyVal))) (stats : Stats) :
    (create_blocked_result s log_id src ty p b ms d stats).2.probability = p := rfl

@[simp] theorem create_blocked_result_bytes (s : Settings) (log_id : ℕ)
    (src ty : String) (p : ℚ) (b : ℕ) (ms : ℚ)
    (d : Option (List (String × PyVal))) (stats : Stats) :
    (create_blocked_result s log_id src ty p b ms d stats).2.bytes_scanned = b := rfl

@[simp] theorem create_blocked_result_fst (s : Settings) (log_id : ℕ)
    (src ty : String) (p : ℚ) (b : ℕ) (ms : ℚ)
    (d : Option (List (String × PyVal))) (stats : Stats) :
    (create_blocked_result s log_id src ty p b ms d stats).1
      = { stats with
          total_scans := stats.total_scans + 1
          threats_blocked := stats.threats_blocked + 1
          total_bytes_scanned := stats.total_bytes_scanned + b } := rfl

@[simp] theorem create_clean_result_status (s : Settings) (log_id : ℕ)
    (src ty : String) (p : ℚ) (b : ℕ) (ms : ℚ)
    (d : Option (List (String × PyVal))) (stats : Stats) :
    (create_clean_result s log_id src ty p b ms d stats).2.status = "CLEAN" := rfl

@[simp] theorem create_clean_result_blocked (s : Settings) (log_id : ℕ)
    (src ty : String) (p : ℚ) (b : ℕ) (ms : ℚ)
    (d : Option (List (String × PyVal))) (stats : Stats) :
    (create_clean_result s log_id src ty p b ms d stats).2.blocked = false := rfl

@[simp] theorem create_clean_result_probability (s : Settings) (log_id : ℕ)
    (src ty : String) (p : ℚ) (b : ℕ) (ms : ℚ)
    (d : Option (List (String × PyVal))) (stats : Stats) :
    (create_clean_result s log_id src ty p b ms d stats).2.probability = p := rfl

@[simp] theorem create_clean_result_bytes (s : Settings) (log_id : ℕ)
    (src ty : String) (p : ℚ) (b : ℕ) (ms : ℚ)
    (d : Option (List (String × PyVal))) (stats : Stats) :
    (create_clean_result s log_id src ty p b ms d stats).2.bytes_scanned = b := rfl

@[simp] theorem create_clean_result_fst (s : Settings) (log_id : ℕ)
    (src ty : String) (p : ℚ) (b : ℕ) (ms : ℚ)
    (d : Option (List (String × PyVal))) (stats : Stats) :
    (create_clean_result s log_id src ty p b ms d stats).1
      = { stats with
          total_scans := stats.total_scans + 1
          total_bytes_scanned := stats.total_bytes_scanned + b } := rfl

/-- Chunking the empty byte string yields no chunks, for any chunk size. -/
theorem chunks_of_nil (chunk_size : ℕ) : chunks_of [] chunk_size = [] := by
  have h : (List.length ([] : List ℕ) + chunk_size - 1) / chunk_size = 0 := by
    simp only [List.length_nil, Nat.zero_add]
    rcases Nat.eq_zero_or_pos chunk_size with h | h
    · simp [h]
    · apply Nat.div_eq_of_lt
      omega
  unfold chunks_of
  rw [h]
  rfl

/-- C10: scanning the empty byte string runs the chunk loop zero times and
returns a clean result with probability `0.0` and zero bytes scanned, for
every configuration, scorer and early-termination override. -/
theorem scan_file_empty_clean (s : Settings) (infer : List ℕ → Except String ℚ)
    (log_id : ℕ) (block_on_detection : Bool) (early_termination : Option Bool)
    (stats : Stats) :
    ∃ st r,
      scan_file s infer log_id [] "uploaded_file" block_on_detection
          early_termination stats = Except.ok (st, r)
      ∧ r.status = "CLEAN" ∧ r.blocked = false ∧ r.probability = 0
      ∧ r.bytes_scanned = 0 := by
  refine ⟨(create_clean_result s log_id "uploaded_file" "FILE" 0 0 0
      (some [("early_termination_attempted", PyVal.bool false)]) stats).1,
    (create_clean_result s log_id "uploaded_file" "FILE" 0 0 0
      (some [("early_termination_attempted", PyVal.bool false)]) stats).2,
    ?_, rfl, rfl, rfl, rfl⟩
  unfold scan_file
  rw [chunks_of_nil]
  rfl

/-- C1: in every chunk step of `scan_file` and `scan_url`, the
early-termination check is evaluated before the standard check: when early
termination is in use and both its byte floor and its threshold are met,
the step blocks with `details.early_termination = true` regardless of the
standard threshold; otherwise a probability at or above the standard
confidence threshold (ties included, `≥`) blocks as a standard block whose
details carry no early-termination flag — in particular when
`bytesScanned < earlyTerminationMinBytes` a probability above both
thresholds still falls through to a standard, unflagged block; otherwise
the scan continues with the updated window, byte count and running
maximum. -/
theorem early_termination_precedence :
    (∀ (s : Settings) (infer : List ℕ → Except String ℚ) (log_id : ℕ)
        (use_et : Bool) (filename : String) (stats : Stats)
        (buffer chunk : List ℕ) (bytes : ℕ) (maxp p : ℚ) (rest : List (List ℕ)),
      infer (slice_last (buffer ++ chunk) s.window_size) = Except.ok p →
      ((use_et = true ∧ bytes + chunk.length ≥ s.early_termination_min_bytes
          ∧ p ≥ s.early_termination_threshold) →
        ∃ st r, scan_file_go s infer log_id use_et filename stats buffer bytes maxp
            (chunk :: rest) = Except.ok (st, r)
          ∧ r.blocked = true ∧ r.status = "THREAT_DETECTED"
          ∧ (r.details.getD []).lookup "early_termination" = some (PyVal.bool true))
      ∧ (¬ (use_et = true ∧ bytes + chunk.length ≥ s.early_termination_min_bytes
          ∧ p ≥ s.early_termination_threshold) → p ≥ s.confidence_threshold →
        ∃ st r, scan_file_go s infer log_id use_et filename stats buffer bytes maxp
            (chunk :: rest) = Except.ok (st, r)
          ∧ r.blocked = true ∧ r.status = "THREAT_DETECTED"
          ∧ (r.details.getD []).lookup "early_termination" = Option.none)
      ∧ (¬ (use_et = true ∧ bytes + chunk.length ≥ s.early_termination_min_bytes
          ∧ p ≥ s.early_termination_threshold) → p < s.confidence_threshold →
        scan_file_go s infer log_id use_et filename stats buffer bytes maxp
            (chunk :: rest)
          = scan_file_go s infer log_id use_et filename stats
              (slice_last (buffer ++ chunk) s.window_size) (bytes + chunk.length)
              (max maxp p) rest))
    ∧ (∀ (s : Settings) (infer : List ℕ → Except String ℚ) (log_id : ℕ)
        (use_et : Bool) (url : String) (stats : Stats)
        (buffer chunk : List ℕ) (bytes : ℕ) (maxp p : ℚ) (rest : List ChunkEvent),
      chunk.length ≠ 0 →
      bytes + chunk.length ≤ s.max_file_size →
      infer (slice_last (buffer ++ chunk) s.window_size) = Except.ok p →
      ((use_et = true ∧ bytes + chunk.length ≥ s.early_termination_min_bytes
          ∧ p ≥ s.early_termination_threshold) →
        ∃ st r, scan_url_go s infer log_id use_et url stats buffer bytes maxp
            (ChunkEvent.chunk chunk :: rest) = Except.ok (st, r)
          ∧ r.blocked = true ∧ r.status = "THREAT_DETECTED"
          ∧ (r.details.getD []).lookup "early_termination" = some (PyVal.bool true))
      ∧ (¬ (use_et = true ∧ bytes + chunk.length ≥ s.early_termination_min_bytes
          ∧ p ≥ s.early_termination_threshold) → p ≥ s.confidence_threshold →
        ∃ st r, scan_url_go s infer log_id use_et url stats buffer bytes maxp
            (ChunkEvent.chunk chunk :: rest) = Except.ok (st, r)
          ∧ r.blocked = true ∧ r.status = "THREAT_DETECTED"
          ∧ (r.details.getD []).lookup "early_termination" = Option.none)
      ∧ (¬ (use_et = true ∧ bytes + chunk.length ≥ s.early_termination_min_bytes
          ∧ p ≥ s.early_termination_threshold) → p < s.confidence_threshold →
        scan_url_go s infer log_id use_et url stats buffer bytes maxp
            (ChunkEvent.chunk chunk :: rest)
          = scan_url_go s infer log_id use_et url stats
              (slice_last (buffer ++ chunk) s.window_size) (bytes + chunk.length)
              (max maxp p) rest)) := by
  constructor
  · intro s infer log_id use_et filename stats buffer chunk bytes maxp p rest hinf
    refine ⟨?_, ?_, ?_⟩
    · intro hcond
      refine ⟨(create_blocked_result s log_id filename "FILE" p (bytes + chunk.length) 0
          (some [("early_termination", PyVal.bool true)]) stats).1,
        (create_blocked_result s log_id filename "FILE" p (bytes + chunk.length) 0
          (some [("early_termination", PyVal.bool true)]) stats).2,
        ?_, rfl, rfl, rfl⟩
      simp only [scan_file_go, hinf]
      rw [if_pos hcond]
    · intro hnot hstd
      refine ⟨(create_blocked_result s log_id filename "FILE" p (bytes + chunk.length) 0
          Option.none stats).1,
        (create_blocked_result s log_id filename "FILE" p (bytes + chunk.length) 0
          Option.none stats).2,
        ?_, rfl, rfl, rfl⟩
      simp only [scan_file_go, hinf]
      rw [if_neg hnot, if_pos hstd]
    · intro hnot hlt
      simp only [scan_file_go, hinf]
      rw [if_neg hnot, if_neg (not_le.mpr hlt)]
  · intro s infer log_id use_et url stats buffer chunk bytes maxp p rest hne hcap hinf
    refine ⟨?_, ?_, ?_⟩
    · intro hcond
      refine ⟨(create_blocked_result s log_id url "URL" p (bytes + chunk.length) 0
          (some [("early_termination", PyVal.bool true)]) stats).1,
        (create_blocked_result s log_id url "URL" p (bytes + chunk.length) 0
          (some [("early_termination", PyVal.bool true)]) stats).2,
        ?_, rfl, rfl, rfl⟩
      simp only [scan_url_go, hinf]
      rw [if_neg hne, if_neg (not_lt.mpr hcap), if_pos hcond]
    · intro hnot hstd
      refine ⟨(create_blocked_result s log_id url "URL" p (bytes + chunk.length) 0
          Option.none stats).1,
        (create_blocked_result s log_id url "URL" p (bytes + chunk.length) 0
          Option.none stats).2,
        ?_, rfl, rfl, rfl⟩
      simp only [scan_url_go, hinf]
      rw [if_neg hne, if_neg (not_lt.mpr hcap), if_neg hnot, if_pos hstd]
    · intro hnot hlt
      simp only [scan_url_go, hinf]
      rw [if_neg hne, if_neg (not_lt.mpr hcap), if_neg hnot, if_neg (not_le.mpr hlt)]

/-- The all-zero statistics record, as initialized at detector start-up. -/
def stats0 : Stats := ⟨0, 0, 0, 0⟩

/-- The early-termination example configuration of the spec:
standard threshold 0.7, early-termination threshold 0.95 with a 1024-byte
floor. -/
def c1Settings : Settings where
  confidence_threshold := 0.7
  low_risk_threshold := 0.3
  medium_risk_threshold := 0.5
  high_risk_threshold := 0.7
  critical_threshold := 0.9
  chunk_size := 512
  window_size := 1500
  max_file_size := 100 * 1024 * 1024
  early_termination_enabled := true
  early_termination_threshold := 0.95
  early_termination_min_bytes := 1024

/-- C1 (witness): the precedence theorem applied at three concrete steps —
an early-termination block at 2049 bytes with probability 0.96, a standard
unflagged block at 500 bytes (below the 1024-byte floor) with probability
0.99 above both thresholds, and a tie block at exactly the standard
threshold 0.7. -/
theorem early_termination_precedence_witness :
    (∃ st r, scan_file_go c1Settings (pureScorer fun _ => 0.96) 0 true "f" stats0
        [] 2048 0 [[0]] = Except.ok (st, r)
      ∧ r.blocked = true ∧ r.status = "THREAT_DETECTED"
      ∧ (r.details.getD []).lookup "early_termination" = some (PyVal.bool true))
    ∧ (∃ st r, scan_file_go c1Settings (pureScorer fun _ => 0.99) 0 true "f" stats0
        [] 499 0 [[0]] = Except.ok (st, r)
      ∧ r.blocked = true ∧ r.status = "THREAT_DETECTED"
      ∧ (r.details.getD []).lookup "early_termination" = Option.none)
    ∧ (∃ st r, scan_url_go c1Settings (pureScorer fun _ => 0.7) 0 true "u" stats0
        [] 499 0 [ChunkEvent.chunk [0]] = Except.ok (st, r)
      ∧ r.blocked = true ∧ r.status = "THREAT_DETECTED"
      ∧ (r.details.getD []).lookup "early_termination" = Option.none) := by
  refine ⟨?_, ?_, ?_⟩
  · exact (early_termination_precedence.1 c1Settings (pureScorer fun _ => 0.96) 0 true "f"
      stats0 [] [0] 2048 0 0.96 [] rfl).1
      ⟨rfl, by norm_num [c1Settings], by norm_num [c1Settings]⟩
  · exact ((early_termination_precedence.1 c1Settings (pureScorer fun _ => 0.99) 0 true "f"
      stats0 [] [0] 499 0 0.99 [] rfl).2.1
      (by rintro ⟨-, hb, -⟩; norm_num [c1Settings] at hb) (by norm_num [c1Settings]))
  · exact ((early_termination_precedence.2 c1Settings (pureScorer fun _ => 0.7) 0 true "u"
      stats0 [] [0] 499 0 0.7 [] (by norm_num) (by norm_num [c1Settings]) rfl).2.1
      (by rintro ⟨-, hb, -⟩; norm_num [c1Settings] at hb) (by norm_num [c1Settings]))

/-- Total length distributes over cons. -/
theorem total_len_cons (c : List ℕ) (rest : List (List ℕ)) :
    total_len (c :: rest) = c.length + total_len rest := by
  simp [total_len]

/-- Invariant of the `scan_file` loop with a fault-free scorer: a clean
exit reports the running maximum of the window probabilities. -/
theorem scan_file_go_clean_aux (s : Settings) (f : List ℕ → ℚ) (log_id : ℕ)
    (use_et : Bool) (fn : String) (stats : Stats) :
    ∀ (cs : List (List ℕ)) (buffer : List ℕ) (bytes : ℕ) (maxp : ℚ)
      (st : Stats) (r : ScanResult),
      scan_file_go s (pureScorer f) log_id use_et fn stats buffer bytes maxp cs
        = Except.ok (st, r) →
      r.status = "CLEAN" →
      r.blocked = false
      ∧ r.probability = (window_probs s f buffer cs).foldl max maxp := by
  intro cs
  induction cs with
  | nil =>
    intro buffer bytes maxp st r h hs
    simp only [scan_file_go] at h
    obtain ⟨h1, h2⟩ := Prod.mk.injEq .. ▸ Except.ok.inj h
    subst h2
    exact ⟨rfl, by simp [window_probs]⟩
  | cons c rest ih =>
    intro buffer bytes maxp st r h hs
    simp only [scan_file_go, pureScorer] at h
    by_cases hcond : use_et = true ∧ bytes + c.length ≥ s.early_termination_min_bytes
        ∧ f (slice_last (buffer ++ c) s.window_size) ≥ s.early_termination_threshold
    · rw [if_pos hcond] at h
      obtain ⟨h1, h2⟩ := Prod.mk.injEq .. ▸ Except.ok.inj h
      subst h2
      simp at hs
    · rw [if_neg hcond] at h
      by_cases hstd : f (slice_last (buffer ++ c) s.window_size) ≥ s.confidence_threshold
      · rw [if_pos hstd] at h
        obtain ⟨h1, h2⟩ := Prod.mk.injEq .. ▸ Except.ok.inj h
        subst h2
        simp at hs
      · rw [if_neg hstd] at h
        obtain ⟨hb, hp⟩ := ih _ _ _ _ _ h hs
        refine ⟨hb, ?_⟩
        rw [hp]
        simp [window_probs]

/-- Invariant of the `scan_url` loop with a fault-free scorer over a
fault-free chunk source of non-empty chunks within the size cap: a clean
exit reports the running maximum of the window probabilities. -/
theorem scan_url_go_clean_aux (s : Settings) (f : List ℕ → ℚ) (log_id : ℕ)
    (use_et : Bool) (url : String) (stats : Stats) :
    ∀ (cs : List (List ℕ)) (buffer : List ℕ) (bytes : ℕ) (maxp : ℚ)
      (st : Stats) (r : ScanResult),
      (∀ c ∈ cs, c ≠ []) →
      bytes + total_len cs ≤ s.max_file_size →
      scan_url_go s (pureScorer f) log_id use_et url stats buffer bytes maxp
          (cs.map ChunkEvent.chunk) = Except.ok (st, r) →
      r.status = "CLEAN" →
      r.blocked = false
      ∧ r.probability = (window_probs s f buffer cs).foldl max maxp := by
  intro cs
  induction cs with
  | nil =>
    intro buffer bytes maxp st r _ _ h hs
    simp only [List.map_nil, scan_url_go] at h
    obtain ⟨h1, h2⟩ := Prod.mk.injEq .. ▸ Except.ok.inj h
    subst h2
    exact ⟨rfl, by simp [window_probs]⟩
  | cons c rest ih =>
    intro buffer bytes maxp st r hne hcap h hs
    rw [total_len_cons] at hcap
    have hc0 : ¬ c.length = 0 := by
      intro h0
      exact hne c (List.mem_cons_self c rest) (List.length_eq_zero.mp h0)
    simp only [List.map_cons, scan_url_go, pureScorer] at h
    rw [if_neg hc0, if_neg (by omega : ¬ bytes + c.length > s.max_file_size)] at h
    by_cases hcond : use_et = true ∧ bytes + c.length ≥ s.early_termination_min_bytes
        ∧ f (slice_last (buffer ++ c) s.window_size) ≥ s.early_termination_threshold
    · rw [if_pos hcond] at h
      obtain ⟨h1, h2⟩ := Prod.mk.injEq .. ▸ Except.ok.inj h
      subst h2
      simp at hs
    · rw [if_neg hcond] at h
      by_cases hstd : f (slice_last (buffer ++ c) s.window_size) ≥ s.confidence_threshold
      · rw [if_pos hstd] at h
        obtain ⟨h1, h2⟩ := Prod.mk.injEq .. ▸ Except.ok.inj h
        subst h2
        simp at hs
      · rw [if_neg hstd] at h
        obtain ⟨hb, hp⟩ := ih _ _ _ _ _
          (fun d hd => hne d (List.mem_cons_of_mem c hd)) (by omega) h hs
        refine ⟨hb, ?_⟩
        rw [hp]
        simp [window_probs]

/-- C2: when a streaming scan — `scan_file`, or `scan_url` over a
fault-free source of non-empty chunks within the size cap — exhausts its
chunks without any threshold firing, the emitted result has status `CLEAN`,
`blocked = false`, and its probability is the running maximum of the
per-window probabilities over the entire stream (starting from the
initial `0.0`), not the final window's probability. -/
theorem clean_scan_reports_running_max :
    (∀ (s : Settings) (f : List ℕ → ℚ) (log_id : ℕ) (file_data : List ℕ)
        (filename : String) (block_on_detection : Bool)
        (early_termination : Option Bool) (stats st : Stats) (r : ScanResult),
      scan_file s (pureScorer f) log_id file_data filename block_on_detection
          early_termination stats = Except.ok (st, r) →
      r.status = "CLEAN" →
      r.blocked = false
      ∧ r.probability
          = (window_probs s f [] (chunks_of file_data s.chunk_size)).foldl max 0)
    ∧ (∀ (s : Settings) (f : List ℕ → ℚ) (log_id : ℕ) (url : String)
        (block_on_detection : Bool) (early_termination : Option Bool)
        (cs : List (List ℕ)) (stats st : Stats) (r : ScanResult),
      (∀ c ∈ cs, c ≠ []) →
      total_len cs ≤ s.max_file_size →
      scan_url s (pureScorer f) log_id url block_on_detection early_termination
          (cs.map ChunkEvent.chunk) stats = Except.ok (st, r) →
      r.status = "CLEAN" →
      r.blocked = false
      ∧ r.probability = (window_probs s f [] cs).foldl max 0) := by
  constructor
  · intro s f log_id file_data filename bod et stats st r h hs
    exact scan_file_go_clean_aux s f log_id (et.getD s.early_termination_enabled)
      filename stats (chunks_of file_data s.chunk_size) [] 0 0 st r h hs
  · intro s f log_id url bod et cs stats st r hne hcap h hs
    exact scan_url_go_clean_aux s f log_id (et.getD s.early_termination_enabled)
      url stats cs [] 0 0 st r hne (by simpa using hcap) h hs

/-- An integer-valued configuration for concrete witness runs (window 4,
chunks of 2, standard threshold 1). -/
def c2Settings : Settings where
  confidence_threshold := 1
  low_risk_threshold := 1
  medium_risk_threshold := 1
  high_risk_threshold := 1
  critical_threshold := 1
  chunk_size := 2
  window_size := 4
  max_file_size := 1000000
  early_termination_enabled := false
  early_termination_threshold := 1
  early_termination_min_bytes := 1

/-- Statistics after one clean 3-byte scan from `stats0`. -/
def c2CleanStats : Stats := ⟨1, 0, 3, 0⟩

/-- The clean result of scanning the 3-byte file `[0,0,0]` under
`c2Settings` with the constant-zero scorer. -/
def c2CleanResult : ScanResult where
  source := "f"
  source_type := "FILE"
  probability := 0
  risk_level := "BENIGN"
  bytes_scanned := 3
  blocked := false
  scan_time_ms := 0
  status := "CLEAN"
  details := some [("log_id", PyVal.nat 0),
                   ("early_termination_attempted", PyVal.bool false)]
  timestamp := ""

/-- C2 (witness): the running-maximum theorem applied to a concrete clean
3-byte scan, both hypotheses discharged by evaluation. -/
theorem clean_scan_reports_running_max_witness :
    c2CleanResult.blocked = false
    ∧ c2CleanResult.probability
        = (window_probs c2Settings (fun _ => 0) []
            (chunks_of [0, 0, 0] c2Settings.chunk_size)).foldl max 0 :=
  clean_scan_reports_running_max.1 c2Settings (fun _ => 0) 0 [0, 0, 0] "f" true
    Option.none stats0 c2CleanStats c2CleanResult rfl rfl

/-- Statistics bookkeeping of the `scan_file` loop: a clean exit increments
`total_scans` and adds the scanned bytes, a blocked exit additionally
increments `threats_blocked`, and no `scan_file` session ends in `ERROR`. -/
theorem scan_file_go_stats_aux (s : Settings) (infer : List ℕ → Except String ℚ)
    (log_id : ℕ) (use_et : Bool) (fn : String) (stats : Stats) :
    ∀ (cs : List (List ℕ)) (buffer : List ℕ) (bytes : ℕ) (maxp : ℚ)
      (st : Stats) (r : ScanResult),
      scan_file_go s infer log_id use_et fn stats buffer bytes maxp cs
        = Except.ok (st, r) →
      ((r.status = "CLEAN" →
          st = { stats with
                 total_scans := stats.total_scans + 1
                 total_bytes_scanned := stats.total_bytes_scanned + r.bytes_scanned })
       ∧ (r.status = "THREAT_DETECTED" →
          st = { stats with
                 total_scans := stats.total_scans + 1
                 threats_blocked := stats.threats_blocked + 1
                 total_bytes_scanned := stats.total_bytes_scanned + r.bytes_scanned })
       ∧ r.status ≠ "ERROR") := by
  intro cs
  induction cs with
  | nil =>
    intro buffer bytes maxp st r h
    simp only [scan_file_go] at h
    obtain ⟨h1, h2⟩ := Prod.mk.injEq .. ▸ Except.ok.inj h
    subst h1; subst h2
    refine ⟨fun _ => by simp, fun hc => by simp at hc, by simp⟩
  | cons c rest ih =>
    intro buffer bytes maxp st r h
    simp only [scan_file_go] at h
    rcases hm : infer (slice_last (buffer ++ c) s.window_size) with e | p
    · rw [hm] at h
      simp at h
    rw [hm] at h
    simp only at h
    by_cases hcond : use_et = true ∧ bytes + c.length ≥ s.early_termination_min_bytes
        ∧ p ≥ s.early_termination_threshold
    · rw [if_pos hcond] at h
      obtain ⟨h1, h2⟩ := Prod.mk.injEq .. ▸ Except.ok.inj h
      subst h1; subst h2
      refine ⟨fun hc => by simp at hc, fun _ => by simp, by simp⟩
    · rw [if_neg hcond] at h
      by_cases hstd : p ≥ s.confidence_threshold
      · rw [if_pos hstd] at h
        obtain ⟨h1, h2⟩ := Prod.mk.injEq .. ▸ Except.ok.inj h
        subst h1; subst h2
        refine ⟨fun hc => by simp at hc, fun _ => by simp, by simp⟩
      · rw [if_neg hstd] at h
        exact ih _ _ _ _ _ h

/-- Statistics bookkeeping of the `scan_url` loop over arbitrary chunk
events: clean and blocked exits update the counters as in `scan_file`,
while the caught chunk-source fault leaves the statistics untouched. -/
theorem scan_url_go_stats_aux (s : Settings) (infer : List ℕ → Except String ℚ)
    (log_id : ℕ) (use_et : Bool) (url : String) (stats : Stats) :
    ∀ (events : List ChunkEvent) (buffer : List ℕ) (bytes : ℕ) (maxp : ℚ)
      (st : Stats) (r : ScanResult),
      scan_url_go s infer log_id use_et url stats buffer bytes maxp events
        = Except.ok (st, r) →
      ((r.status = "CLEAN" →
          st = { stats with
                 total_scans := stats.total_scans + 1
                 total_bytes_scanned := stats.total_bytes_scanned + r.bytes_scanned })
       ∧ (r.status = "THREAT_DETECTED" →
          st = { stats with
                 total_scans := stats.total_scans + 1
                 threats_blocked := stats.threats_blocked + 1
                 total_bytes_scanned := stats.total_bytes_scanned + r.bytes_scanned })
       ∧ (r.status = "ERROR" → st = stats)) := by
  intro events
  induction events with
  | nil =>
    intro buffer bytes maxp st r h
    simp only [scan_url_go] at h
    obtain ⟨h1, h2⟩ := Prod.mk.injEq .. ▸ Except.ok.inj h
    subst h1; subst h2
    exact ⟨fun _ => by simp, fun hc => by simp at hc, fun hc => by simp at hc⟩
  | cons ev rest ih =>
    intro buffer bytes maxp st r h
    rcases ev with c | msg
    · simp only [scan_url_go] at h
      by_cases hc0 : c.length = 0
      · rw [if_pos hc0] at h
        obtain ⟨h1, h2⟩ := Prod.mk.injEq .. ▸ Except.ok.inj h
        subst h1; subst h2
        exact ⟨fun _ => by simp, fun hc => by simp at hc, fun hc => by simp at hc⟩
      rw [if_neg hc0] at h
      by_cases hcap : bytes + c.length > s.max_file_size
      · rw [if_pos hcap] at h
        obtain ⟨h1, h2⟩ := Prod.mk.injEq .. ▸ Except.ok.inj h
        subst h1; subst h2
        exact ⟨fun _ => by simp, fun hc => by simp at hc, fun hc => by simp at hc⟩
      rw [if_neg hcap] at h
      rcases hm : infer (slice_last (buffer ++ c) s.window_size) with e | p
      · rw [hm] at h
        simp at h
      rw [hm] at h
      simp only at h
      by_cases hcond : use_et = true ∧ bytes + c.length ≥ s.early_termination_min_bytes
          ∧ p ≥ s.early_termination_threshold
      · rw [if_pos hcond] at h
        obtain ⟨h1, h2⟩ := Prod.mk.injEq .. ▸ Except.ok.inj h
        subst h1; subst h2
        exact ⟨fun hc => by simp at hc, fun _ => by simp, fun hc => by simp at hc⟩
      · rw [if_neg hcond] at h
        by_cases hstd : p ≥ s.confidence_threshold
        · rw [if_pos hstd] at h
          obtain ⟨h1, h2⟩ := Prod.mk.injEq .. ▸ Except.ok.inj h
          subst h1; subst h2
          exact ⟨fun hc => by simp at hc, fun _ => by simp, fun hc => by simp at hc⟩
        · rw [if_neg hstd] at h
          exact ih _ _ _ _ _ h
    · simp only [scan_url_go] at h
      obtain ⟨h1, h2⟩ := Prod.mk.injEq .. ▸ Except.ok.inj h
      subst h1; subst h2
      exact ⟨fun hc => by simp [error_scan_result] at hc,
        fun hc => by simp [error_scan_result] at hc, fun _ => rfl⟩

/-- C3 (counterexample): a chunk-source fault on the first chunk of a URL
scan produces a terminal `ERROR` result while the detector statistics are
left exactly as they were — `total_scans` is not incremented, contradicting
the claim that every terminal transition increments it by exactly 1. -/
theorem error_terminal_stats_unchanged :
    scan_url defaultSettings (fun _ => Except.ok 0) 0 "http://x" true Option.none
        [ChunkEvent.fault "connection reset"] stats0
      = Except.ok (stats0, error_scan_result "http://x" 0 0 "connection reset")
    ∧ (error_scan_result "http://x" 0 0 "connection reset").status = "ERROR"
    ∧ stats0.total_scans ≠ stats0.total_scans + 1 :=
  ⟨rfl, rfl, by decide⟩

/-- C3 (amended): a BLOCKED or CLEAN terminal of `scan_file` or `scan_url`
increments `total_scans` by exactly 1 and adds the session's
`bytes_scanned` to `total_bytes_scanned`; a BLOCKED terminal additionally
increments `threats_blocked` by exactly 1; an `ERROR` terminal (the caught
chunk-source fault of `scan_url`) leaves all counters unchanged, and
`scan_file` never ends in `ERROR`. -/
theorem terminal_transition_stats :
    (∀ (s : Settings) (infer : List ℕ → Except String ℚ) (log_id : ℕ)
        (file_data : List ℕ) (filename : String) (block_on_detection : Bool)
        (early_termination : Option Bool) (stats st : Stats) (r : ScanResult),
      scan_file s infer log_id file_data filename block_on_detection
          early_termination stats = Except.ok (st, r) →
      ((r.status = "CLEAN" →
          st = { stats with
                 total_scans := stats.total_scans + 1
                 total_bytes_scanned := stats.total_bytes_scanned + r.bytes_scanned })
       ∧ (r.status = "THREAT_DETECTED" →
          st = { stats with
                 total_scans := stats.total_scans + 1
                 threats_blocked := stats.threats_blocked + 1
                 total_bytes_scanned := stats.total_bytes_scanned + r.bytes_scanned })
       ∧ r.status ≠ "ERROR"))
    ∧ (∀ (s : Settings) (infer : List ℕ → Except String ℚ) (log_id : ℕ)
        (url : String) (block_on_detection : Bool) (early_termination : Option Bool)
        (events : List ChunkEvent) (stats st : Stats) (r : ScanResult),
      scan_url s infer log_id url block_on_detection early_termination events stats
        = Except.ok (st, r) →
      ((r.status = "CLEAN" →
          st = { stats with
                 total_scans := stats.total_scans + 1
                 total_bytes_scanned := stats.total_bytes_scanned + r.bytes_scanned })
       ∧ (r.status = "THREAT_DETECTED" →
          st = { stats with
                 total_scans := stats.total_scans + 1
                 threats_blocked := stats.threats_blocked + 1
                 total_bytes_scanned := stats.total_bytes_scanned + r.bytes_scanned })
       ∧ (r.status = "ERROR" → st = stats))) := by
  constructor
  · intro s infer log_id file_data filename bod et stats st r h
    exact scan_file_go_stats_aux s infer log_id (et.getD s.early_termination_enabled)
      filename stats (chunks_of file_data s.chunk_size) [] 0 0 st r h
  · intro s infer log_id url bod et events stats st r h
    exact scan_url_go_stats_aux s infer log_id (et.getD s.early_termination_enabled)
      url stats events [] 0 0 st r h

/-- C3 (witness): the statistics theorem applied to the concrete clean
3-byte scan of `c2Settings`: `total_scans` goes from 0 to 1 and the 3
scanned bytes are added. -/
theorem terminal_transition_stats_witness :
    c2CleanStats
      = { stats0 with
          total_scans := stats0.total_scans + 1
          total_bytes_scanned := stats0.total_bytes_scanned + c2CleanResult.bytes_scanned } :=
  ((terminal_transition_stats.1 c2Settings (pureScorer fun _ => 0) 0 [0, 0, 0] "f" true
    Option.none stats0 c2CleanStats c2CleanResult rfl).1) rfl

/-- C4 (counterexample): a scoring fault is not caught by either entry
point — the exception escapes `scan_file` (which has no handler at all) and
`scan_url` (whose handler only catches `requests.RequestException`), so the
caller does not receive an `ERROR` ScanResult. -/
theorem scorer_fault_escapes :
    scan_file defaultSettings (fun _ => Except.error "Model not loaded") 0 [0] "f"
        true Option.none stats0 = Except.error "Model not loaded"
    ∧ scan_url defaultSettings (fun _ => Except.error "Model not loaded") 0 "http://x"
        true Option.none [ChunkEvent.chunk [0]] stats0
      = Except.error "Model not loaded" :=
  ⟨rfl, rfl⟩

/-- C4 (amended): a chunk-source fault in `scan_url` is caught and yields a
`ScanResult` with status `ERROR`, probability `0.0`, `blocked = false` and
the fault text in `details` — never a BLOCKED or CLEAN result and with the
statistics untouched; a scoring fault, by contrast, propagates as an
exception out of both `scan_url` and `scan_file`. -/
theorem chunk_source_fault_error_result :
    (∀ (s : Settings) (infer : List ℕ → Except String ℚ) (log_id : ℕ)
        (use_et : Bool) (url : String) (stats : Stats) (buffer : List ℕ)
        (bytes : ℕ) (maxp : ℚ) (msg : String) (rest : List ChunkEvent),
      scan_url_go s infer log_id use_et url stats buffer bytes maxp
          (ChunkEvent.fault msg :: rest)
        = Except.ok (stats, error_scan_result url bytes 0 msg))
    ∧ (∀ (url : String) (bytes : ℕ) (ms : ℚ) (msg : String),
      (error_scan_result url bytes ms msg).status = "ERROR"
      ∧ (error_scan_result url bytes ms msg).probability = 0
      ∧ (error_scan_result url bytes ms msg).blocked = false
      ∧ ((error_scan_result url bytes ms msg).details.getD []).lookup "error"
          = some (PyVal.str msg))
    ∧ (∀ (s : Settings) (infer : List ℕ → Except String ℚ) (log_id : ℕ)
        (use_et : Bool) (url : String) (stats : Stats) (buffer chunk : List ℕ)
        (bytes : ℕ) (maxp : ℚ) (e : String) (rest : List ChunkEvent),
      chunk.length ≠ 0 →
      bytes + chunk.length ≤ s.max_file_size →
      infer (slice_last (buffer ++ chunk) s.window_size) = Except.error e →
      scan_url_go s infer log_id use_et url stats buffer bytes maxp
          (ChunkEvent.chunk chunk :: rest) = Except.error e)
    ∧ (∀ (s : Settings) (infer : List ℕ → Except String ℚ) (log_id : ℕ)
        (use_et : Bool) (filename : String) (stats : Stats) (buffer chunk : List ℕ)
        (bytes : ℕ) (maxp : ℚ) (e : String) (rest : List (List ℕ)),
      infer (slice_last (buffer ++ chunk) s.window_size) = Except.error e →
      scan_file_go s infer log_id use_et filename stats buffer bytes maxp
          (chunk :: rest) = Except.error e) := by
  refine ⟨?_, ?_, ?_, ?_⟩
  · intro s infer log_id use_et url stats buffer bytes maxp msg rest
    simp only [scan_url_go]
  · intro url bytes ms msg
    exact ⟨rfl, rfl, rfl, rfl⟩
  · intro s infer log_id use_et url stats buffer chunk bytes maxp e rest hne hcap hm
    simp only [scan_url_go, hm]
    rw [if_neg hne, if_neg (not_lt.mpr hcap)]
  · intro s infer log_id use_et filename stats buffer chunk bytes maxp e rest hm
    simp only [scan_file_go, hm]

/-- C4 (witness): the fault theorem applied at a concrete caught
chunk-source fault after 5 bytes, and at a concrete scoring fault in each
entry loop with all hypotheses discharged. -/
theorem chunk_source_fault_error_result_witness :
    scan_url_go defaultSettings (fun _ => Except.ok 0) 0 false "u" stats0 [] 5 0
        [ChunkEvent.fault "timeout"]
      = Except.ok (stats0, error_scan_result "u" 5 0 "timeout")
    ∧ (error_scan_result "u" 5 0 "timeout").status = "ERROR"
    ∧ scan_url_go defaultSettings (fun _ => Except.error "cuda error") 0 false "u"
        stats0 [] 0 0 [ChunkEvent.chunk [7]] = Except.error "cuda error"
    ∧ scan_file_go defaultSettings (fun _ => Except.error "cuda error") 0 false "f"
        stats0 [] 0 0 [[7]] = Except.error "cuda error" :=
  ⟨chunk_source_fault_error_result.1 defaultSettings (fun _ => Except.ok 0) 0 false "u"
      stats0 [] 5 0 "timeout" [],
   (chunk_source_fault_error_result.2.1 "u" 5 0 "timeout").1,
   chunk_source_fault_error_result.2.2.1 defaultSettings (fun _ => Except.error "cuda error")
      0 false "u" stats0 [] [7] 0 0 "cuda error" [] (by decide) (by decide) rfl,
   chunk_source_fault_error_result.2.2.2 defaultSettings (fun _ => Except.error "cuda error")
      0 false "f" stats0 [] [7] 0 0 "cuda error" [] rfl⟩
